import Mathlib

/-!
Shallow embedding of the batch AVI→MP4 conversion core of `src/app.py`
(an ffmpeg-based converter behind a file-upload UI), together with
theorems settling the specification's claims about it.

External effects (the ffmpeg subprocess and the file system state it
leaves behind) are passed in as explicit parameters: a function from the
argument vector to a process outcome, and the state of the destination
file after the tool ran.
-/

namespace AviConverter

/-- Outcome of one `subprocess.run` call: the process either completed
with an exit code and captured stdout/stderr text, or failed to launch
(missing binary, permission denied) with an exception message. -/
inductive ProcOutcome where
  | completed (exitCode : Nat) (stdout stderr : String)
  | launchFailure (msg : String)
deriving DecidableEq

/-- `OUTPUT_DIR` from app.py line 89: destination directory for converted files. -/
def OUTPUT_DIR : String := "converted_videos"

/-- `MAX_THREADS` from app.py line 91: the constant worker cap passed to the executor. -/
def MAX_THREADS : Nat := 3

/-- The ffmpeg argument vector built in `convert_single_video`
(app.py lines 97-107), as a function of the input and output paths.
Every other element is a literal constant in the source. -/
def ffmpeg_cmd (input output : String) : List String :=
  ["ffmpeg",
   "-y", "-i", input,
   "-c:v", "libx264", "-preset", "superfast",
   "-crf", "23",
   "-c:a", "aac", "-b:a", "192k",
   "-movflags", "+faststart",
   "-threads", "2",
   "-v", "error",
   output]

/-- Modelled from the spec: the §6 wire-level template
`<tool> -y -i <input> -c:v <vcodec> -c:a <acodec> -b:a <abitrate> -preset <preset> -v error <output>`,
with the fixed values the code uses, for comparison with `ffmpeg_cmd`. -/
def spec_cmd (input output : String) : List String :=
  ["ffmpeg",
   "-y", "-i", input,
   "-c:v", "libx264",
   "-c:a", "aac", "-b:a", "192k",
   "-preset", "superfast",
   "-v", "error",
   output]

/-- The constant part of the command before the input path. -/
def cmd_fixed_pre : List String := ["ffmpeg", "-y", "-i"]

/-- The constant part of the command between the input and output paths. -/
def cmd_fixed_mid : List String :=
  ["-c:v", "libx264", "-preset", "superfast", "-crf", "23",
   "-c:a", "aac", "-b:a", "192k", "-movflags", "+faststart",
   "-threads", "2", "-v", "error"]

/-- `convert_single_video` (app.py lines 94-113). `proc` is the external
world: it maps the argument vector to the outcome of running it.
`subprocess.run(..., check=True)` raises `CalledProcessError` exactly on a
non-zero exit; that exception is caught and turned into `(False, e.stderr)`;
any launch failure is caught and turned into `(False, str(e))`; exit code 0
yields `(True, "")`. The function is total: it never propagates an
exception to its caller. -/
def convert_single_video (input_path output_path : String)
    (proc : List String → ProcOutcome) : Bool × String :=
  match proc (ffmpeg_cmd input_path output_path) with
  | .completed ec _ se => if ec = 0 then (true, "") else (false, se)
  | .launchFailure msg => (false, msg)

/-! ### Decimal formatting of the sequence index

Python's f-string `f"{stem}_{index}.mp4"` renders `index` in decimal.
`decDigitsAux` is standard decimal formatting (structural recursion on a
fuel bound so that it evaluates by `decide`/`rfl`). -/

/-- Numeric value of a decimal digit character. -/
def dVal (c : Char) : Nat := c.toNat - 48

/-- Decimal digit list of `n`, most significant first; `fuel` bounds the
recursion and any `fuel > n` gives the exact digits. -/
def decDigitsAux : Nat → Nat → List Char
  | 0, _ => []
  | fuel + 1, n =>
    if n < 10 then [Nat.digitChar n]
    else decDigitsAux fuel (n / 10) ++ [Nat.digitChar (n % 10)]

/-- Decimal string of a natural number, as Python's `str` renders it. -/
def decRepr (n : Nat) : String := ⟨decDigitsAux (n + 1) n⟩

/-- Reads a digit list back as a number (left inverse of formatting). -/
def decodeD (l : List Char) : Nat := l.foldl (fun acc c => acc * 10 + dVal c) 0

/-- Python `Path(name).stem` (app.py line 123): the name without its final
suffix, where a suffix is a final `"."`-separated part that is neither the
whole name (leading dot) nor empty (trailing dot). `k` below is the number
of characters after the last dot (`= length` when there is no dot). -/
def stem (s : String) : String :=
  let cs := s.data
  let k := (cs.reverse.takeWhile (fun c => c != '.')).length
  if k + 1 < cs.length ∧ 1 ≤ k then ⟨cs.take (cs.length - k - 1)⟩ else s

/-- `output_filename` (app.py line 123): `f"{Path(file.name).stem}_{index}.mp4"`. -/
def output_filename (name : String) (index : Nat) : String :=
  stem name ++ "_" ++ decRepr index ++ ".mp4"

/-! ### One task: `process_file` -/

/-- The result tuple a worker returns (app.py lines 137-140):
`(success, file.name, file_bytes_or_None, output_filename_or_empty, error, duration)`.
The wall-clock `duration` float is abstracted away (real time is outside
this model); bytes are modelled as `List Nat`. -/
structure ConversionResult where
  succeeded : Bool
  sourceName : String
  fileBytes : Option (List Nat)
  outputName : String
  errorDetail : String
deriving DecidableEq

/-- File-system footprint of one task after `process_file` returns:
whether the staged temporary input still exists (with its content) and
whether the destination output file still exists (with its content). -/
structure TaskFS where
  tempInput : Option (List Nat)
  outputFile : Option (List Nat)
deriving DecidableEq

/-- File-system events a task performs, in order. -/
inductive Ev where
  | writeTemp (content : List Nat)
  | runConverter (cmd : List String)
  | unlinkTemp
  | readOutput (bytes : List Nat)
  | unlinkOutput
  | returnResult
deriving DecidableEq

/-- `process_file` (app.py lines 115-140). The worker stages the upload's
content into a fresh temporary file at `tempPath`, derives the output name
from the stem and the sequence index, calls `convert_single_video`, then
unconditionally unlinks the temporary input (it exists, having just been
created, and nothing deleted it). On success it requires the output file
to exist (`outputAfter`, the destination's state once the tool has run:
`some bytes` if present — possibly empty — `none` if absent), reads it
back and unlinks it; an absent output downgrades the result to a failure.
On failure the destination is left untouched. Returns the result, the
final file-system footprint, and the event trace. -/
def process_file (name : String) (content : List Nat) (index : Nat)
    (tempPath : String) (proc : List String → ProcOutcome)
    (outputAfter : Option (List Nat)) : ConversionResult × TaskFS × List Ev :=
  let oname := output_filename name index
  let opath := OUTPUT_DIR ++ "/" ++ oname
  let res := convert_single_video tempPath opath proc
  if res.1 then
    match outputAfter with
    | some bytes =>
        (⟨true, name, some bytes, oname, ""⟩, ⟨none, none⟩,
         [.writeTemp content, .runConverter (ffmpeg_cmd tempPath opath),
          .unlinkTemp, .readOutput bytes, .unlinkOutput, .returnResult])
    | none =>
        (⟨false, name, none, "", "Output file not found after conversion."⟩,
         ⟨none, none⟩,
         [.writeTemp content, .runConverter (ffmpeg_cmd tempPath opath),
          .unlinkTemp, .returnResult])
  else
    (⟨false, name, none, "", res.2⟩, ⟨none, outputAfter⟩,
     [.writeTemp content, .runConverter (ffmpeg_cmd tempPath opath),
      .unlinkTemp, .returnResult])

/-! ### The coordinator loop -/

/-- One uploaded file: name and content. -/
structure UploadedFile where
  name : String
  content : List Nat
deriving DecidableEq

/-- The record the coordinator appends when a future raises instead of
returning (app.py line 206): `(False, "Unknown", b"", "", str(e), 0.0)`. -/
def exception_record (msg : String) : ConversionResult :=
  ⟨false, "Unknown", some [], "", msg⟩

/-- Per-task external behaviour: `exn` set means the worker itself raised
(the coordinator catches it at `future.result()`); otherwise the task runs
`process_file` against the given temp path, process oracle, and resulting
destination-file state. -/
structure TaskBehavior where
  exn : Option String
  tempPath : String
  proc : List String → ProcOutcome
  outputAfter : Option (List Nat)

/-- The coordinator loop (app.py lines 190-211): one future per uploaded
file via `enumerate`, and for each completed future exactly one record is
appended — the worker's tuple, or `exception_record` if it raised. The
`as_completed` iteration order is some permutation of submission order;
it is modelled here as submission order, which the counting claims are
invariant under. -/
def run_batch (files : List UploadedFile) (beh : Nat → TaskBehavior) :
    List ConversionResult :=
  files.enum.map (fun p =>
    match (beh p.1).exn with
    | some msg => exception_record msg
    | none =>
        (process_file p.2.name p.2.content p.1 (beh p.1).tempPath
          (beh p.1).proc (beh p.1).outputAfter).1)

/-- `successful` partition (app.py line 218): `[r for r in results if r[0]]`. -/
def successful (rs : List ConversionResult) : List ConversionResult :=
  rs.filter (fun r => r.succeeded)

/-- `failed` partition (app.py line 219): `[r for r in results if not r[0]]`. -/
def failed (rs : List ConversionResult) : List ConversionResult :=
  rs.filter (fun r => !r.succeeded)

/-! ### Top-level flow -/

/-- What the page does once files are (or are not) uploaded. `rejected` is
modelled from the spec: §7's batch-level InputRejected error outcome; the
code has no branch producing it. -/
inductive AppOutcome where
  | help
  | runConversion (files : List UploadedFile)
  | rejected
deriving DecidableEq

/-- File-count limit (app.py lines 157-159): more than 10 uploads are
truncated to the first 10, with only a warning shown. -/
def limit_files (uploaded : List UploadedFile) : List UploadedFile :=
  if uploaded.length > 10 then uploaded.take 10 else uploaded

/-- Top-level control flow (app.py lines 157-265): truncate to at most 10
files; with a non-empty list the conversion pipeline runs on it; with no
files the page shows usage instructions. -/
def app_flow (uploaded : List UploadedFile) : AppOutcome :=
  let files := limit_files uploaded
  if files.isEmpty then AppOutcome.help else AppOutcome.runConversion files

/-- The executor's worker cap (app.py line 190):
`ThreadPoolExecutor(max_workers=MAX_THREADS)` — a constant, independent of
the number of uploaded files. -/
def pool_max_workers (_numFiles : Nat) : Nat := MAX_THREADS

/-! ## Helper lemmas -/

/-- Reading back the digit character of a digit recovers the digit. -/
lemma dVal_digitChar : ∀ d : Nat, d < 10 → dVal (Nat.digitChar d) = d := by decide

/-- Digit characters of digits are never an underscore. -/
lemma digitChar_ne_underscore : ∀ d : Nat, d < 10 → Nat.digitChar d ≠ '_' := by decide

/-- Digit characters of digits are never a dot. -/
lemma digitChar_ne_dot : ∀ d : Nat, d < 10 → Nat.digitChar d ≠ '.' := by decide

/-- With enough fuel, decoding the produced digits recovers the number. -/
lemma decodeD_decDigitsAux : ∀ fuel n, n < fuel → decodeD (decDigitsAux fuel n) = n := by
  intro fuel
  induction fuel with
  | zero => intro n h; omega
  | succ fuel ih =>
    intro n hn
    by_cases h : n < 10
    · simp [decDigitsAux, h, decodeD, dVal_digitChar n h]
    · have hdiv : n / 10 < n := Nat.div_lt_self (by omega) (by omega)
      have hf : n / 10 < fuel := by omega
      rw [decDigitsAux, if_neg h, decodeD, List.foldl_append]
      have := ih (n / 10) hf
      rw [decodeD] at this
      simp [this, dVal_digitChar (n % 10) (Nat.mod_lt n (by omega))]
      omega

/-- Decimal formatting is injective. -/
lemma decRepr_inj {m n : Nat} (h : decRepr m = decRepr n) : m = n := by
  have hd : decDigitsAux (m + 1) m = decDigitsAux (n + 1) n := by
    have := congrArg String.data h
    simpa [decRepr] using this
  have hm := decodeD_decDigitsAux (m + 1) m (by omega)
  have hn := decodeD_decDigitsAux (n + 1) n (by omega)
  rw [hd, hn] at hm
  omega

/-- Every character of the decimal digits is a digit character of a digit. -/
lemma mem_decDigitsAux : ∀ fuel n c, c ∈ decDigitsAux fuel n →
    ∃ d, d < 10 ∧ c = Nat.digitChar d := by
  intro fuel
  induction fuel with
  | zero => intro n c hc; simp [decDigitsAux] at hc
  | succ fuel ih =>
    intro n c hc
    by_cases h : n < 10
    · rw [decDigitsAux, if_pos h] at hc
      simp at hc
      exact ⟨n, h, hc⟩
    · rw [decDigitsAux, if_neg h] at hc
      rcases List.mem_append.mp hc with h1 | h2
      · exact ih _ _ h1
      · simp at h2
        exact ⟨n % 10, Nat.mod_lt n (by omega), h2⟩

/-- No underscore appears in a decimal representation. -/
lemma decDigits_ne_underscore : ∀ n c, c ∈ decDigitsAux (n + 1) n → c ≠ '_' := by
  intro n c hc
  obtain ⟨d, hd, rfl⟩ := mem_decDigitsAux _ _ _ hc
  exact digitChar_ne_underscore d hd

/-- `takeWhile` of a list of satisfying elements followed by a failing
element returns exactly the leading block. -/
lemma takeWhile_block (p : Char → Bool) :
    ∀ (l1 : List Char) (x : Char) (l2 : List Char),
      (∀ c ∈ l1, p c = true) → p x = false →
      List.takeWhile p (l1 ++ x :: l2) = l1 := by
  intro l1
  induction l1 with
  | nil => intro x l2 _ hx; simp [List.takeWhile_cons, hx]
  | cons a t ih =>
    intro x l2 hall hx
    have ha : p a = true := hall a (by simp)
    simp only [List.cons_append, List.takeWhile_cons, ha, if_true]
    rw [ih x l2 (fun c hc => hall c (by simp [hc])) hx]

/-- String concatenation acts as list concatenation on the data. -/
lemma string_data_append (s t : String) : (s ++ t).data = s.data ++ t.data := by
  cases s; cases t; rfl

/-- If two underscore-free blocks close off equal strings of the shape
`prefix ++ '_' :: block`, the blocks agree. -/
lemma underscore_block_inj (s1 s2 d1 d2 : List Char)
    (h1 : ∀ c ∈ d1, c ≠ '_') (h2 : ∀ c ∈ d2, c ≠ '_')
    (heq : s1 ++ '_' :: d1 = s2 ++ '_' :: d2) : d1 = d2 := by
  have hrev := congrArg List.reverse heq
  simp only [List.reverse_append, List.reverse_cons, List.append_assoc,
    List.singleton_append] at hrev
  have t1 : List.takeWhile (fun c => c != '_')
      (d1.reverse ++ '_' :: s1.reverse) = d1.reverse := by
    refine takeWhile_block _ _ _ _ ?_ (by simp)
    intro c hc
    simp only [bne_iff_ne, ne_eq, decide_eq_true_eq]
    exact h1 c (List.mem_reverse.mp hc)
  have t2 : List.takeWhile (fun c => c != '_')
      (d2.reverse ++ '_' :: s2.reverse) = d2.reverse := by
    refine takeWhile_block _ _ _ _ ?_ (by simp)
    intro c hc
    simp only [bne_iff_ne, ne_eq, decide_eq_true_eq]
    exact h2 c (List.mem_reverse.mp hc)
  rw [hrev] at t1
  have := t1.symm.trans t2
  exact List.reverse_injective this

/-- Balance of the results partition: every record lands in exactly one of
`successful`/`failed`. -/
lemma partition_length (rs : List ConversionResult) :
    (successful rs).length + (failed rs).length = rs.length := by
  induction rs with
  | nil => rfl
  | cons r t ih =>
    cases h : r.succeeded <;>
      simp [successful, failed, List.filter_cons, h] at ih ⊢ <;> omega

/-- The top-level flow collapses to: help page on an empty upload list,
otherwise the conversion pipeline on the (possibly truncated) list. -/
lemma app_flow_cases (uploaded : List UploadedFile) :
    app_flow uploaded = match uploaded with
      | [] => AppOutcome.help
      | _ :: _ => AppOutcome.runConversion (limit_files uploaded) := by
  cases uploaded with
  | nil => rfl
  | cons a t =>
    have hne : (limit_files (a :: t)).isEmpty = false := by
      rw [limit_files]
      split
      · rfl
      · rfl
    simp [app_flow, hne]

/-! ## Claims -/

/-- Claim C2: for every invocation of `convert_single_video`, a zero exit
status yields `(true, "")`, a non-zero exit yields `(false, stderr)` with
the captured standard-error text, and a launch failure yields
`(false, msg)` with the launch failure message; the function is total, so
it never raises to its caller. -/
theorem c2_convert_cases :
    ∀ (proc : List String → ProcOutcome) (i o : String) (ec : Nat) (so se msg : String),
      (proc (ffmpeg_cmd i o) = .completed ec so se →
        convert_single_video i o proc = if ec = 0 then (true, "") else (false, se)) ∧
      (proc (ffmpeg_cmd i o) = .launchFailure msg →
        convert_single_video i o proc = (false, msg)) := by
  intro proc i o ec so se msg
  constructor
  · intro h; simp [convert_single_video, h]
  · intro h; simp [convert_single_video, h]

/-- Witness for C2: the three outcomes at concrete process behaviours. -/
theorem c2_convert_cases_witness :
    convert_single_video "in.avi" "out.mp4" (fun _ => .completed 0 "out" "warn") = (true, "") ∧
    convert_single_video "in.avi" "out.mp4" (fun _ => .completed 1 "" "invalid data") = (false, "invalid data") ∧
    convert_single_video "in.avi" "out.mp4" (fun _ => .launchFailure "ffmpeg not found") = (false, "ffmpeg not found") := by
  refine ⟨?_, ?_, ?_⟩
  · simpa using
      (c2_convert_cases (fun _ => .completed 0 "out" "warn") "in.avi" "out.mp4" 0 "out" "warn" "").1 rfl
  · simpa using
      (c2_convert_cases (fun _ => .completed 1 "" "invalid data") "in.avi" "out.mp4" 1 "" "invalid data" "").1 rfl
  · exact
      (c2_convert_cases (fun _ => .launchFailure "ffmpeg not found") "in.avi" "out.mp4" 0 "" "" "ffmpeg not found").2 rfl

/-- Claim C3: derived output names are distinct for distinct sequence
indices, whatever the two source names (in particular when they share a
base name), because the name is stem, underscore, decimal index, ".mp4". -/
theorem c3_distinct_names :
    ∀ (name1 name2 : String) (i j : Nat), i ≠ j →
      output_filename name1 i ≠ output_filename name2 j := by
  intro n1 n2 i j hij heq
  apply hij
  have hdata := congrArg String.data heq
  simp only [output_filename, string_data_append] at hdata
  simp only [List.append_assoc, List.singleton_append] at hdata
  have hfree : ∀ n : Nat, ∀ c ∈ decDigitsAux (n + 1) n ++ ['.', 'm', 'p', '4'], c ≠ '_' := by
    intro n c hc
    rcases List.mem_append.mp hc with h | h
    · exact decDigits_ne_underscore n c h
    · simp at h
      rcases h with rfl | rfl | rfl | rfl <;> decide
  have hblocks := underscore_block_inj _ _ _ _ (hfree i) (hfree j) hdata
  have hdd : decDigitsAux (i + 1) i = decDigitsAux (j + 1) j :=
    List.append_cancel_right hblocks
  exact decRepr_inj (congrArg String.mk hdd)

/-- Witness for C3: two uploads both named "clip.avi" at indices 0 and 1
get distinct output names. -/
theorem c3_distinct_names_witness :
    (0 : Nat) ≠ 1 ∧ output_filename "clip.avi" 0 ≠ output_filename "clip.avi" 1 :=
  ⟨by decide, c3_distinct_names "clip.avi" "clip.avi" 0 1 (by decide)⟩

/-- Claim C5 counterexample: the actual command contains `-crf` (and also
`-movflags`, `-threads`), which is outside the claimed template, so the
tool is not invoked "with no other arguments" than the template. -/
theorem c5_counterexample :
    "-crf" ∈ ffmpeg_cmd "in.avi" "out.mp4" ∧
    "-crf" ∉ spec_cmd "in.avi" "out.mp4" ∧
    ffmpeg_cmd "in.avi" "out.mp4" ≠ spec_cmd "in.avi" "out.mp4" := by
  refine ⟨by decide, by decide, by decide⟩

/-- Claim C5 (amended): the tool is invoked with a fixed argument vector —
every claimed template argument is present, and the whole command is a
constant template around the input and output paths; the additional
arguments `-crf 23`, `-movflags +faststart`, `-threads 2` are equally
fixed constants, never caller-configurable. -/
theorem c5_amended_cmd_template :
    ∀ input output : String,
      ffmpeg_cmd input output = cmd_fixed_pre ++ input :: cmd_fixed_mid ++ [output] ∧
      (∀ a, a ∈ spec_cmd input output → a ∈ ffmpeg_cmd input output) := by
  intro input output
  constructor
  · rfl
  · intro a ha
    simp only [spec_cmd, List.mem_cons, List.mem_singleton] at ha
    simp only [ffmpeg_cmd, List.mem_cons, List.mem_singleton]
    tauto

/-- Witness for C5 (amended): template shape and a concrete membership. -/
theorem c5_amended_cmd_template_witness :
    ffmpeg_cmd "a.avi" "b.mp4" = cmd_fixed_pre ++ "a.avi" :: cmd_fixed_mid ++ ["b.mp4"] ∧
    "-b:a" ∈ ffmpeg_cmd "a.avi" "b.mp4" :=
  ⟨(c5_amended_cmd_template "a.avi" "b.mp4").1,
   (c5_amended_cmd_template "a.avi" "b.mp4").2 "-b:a" (by decide)⟩

/-- Claim C9 counterexample: the worker pool is created with the constant
`max_workers = MAX_THREADS = 3`, which differs from `min(C, N)` already
for a single-file batch. -/
theorem c9_counterexample : pool_max_workers 1 ≠ min MAX_THREADS 1 := by decide

/-- Claim C9 (amended): the pool's `max_workers` argument is the constant
`MAX_THREADS = 3` regardless of the batch size, and it coincides with
`min(MAX_THREADS, N)` exactly when the batch has at least 3 files. -/
theorem c9_amended_pool_constant :
    ∀ n : Nat, pool_max_workers n = MAX_THREADS ∧
      (pool_max_workers n = min MAX_THREADS n ↔ 3 ≤ n) := by
  intro n
  refine ⟨rfl, ?_⟩
  simp only [pool_max_workers, MAX_THREADS]
  omega

/-- Claim C10: an upload of more than 10 files is truncated to its first
10 (in submission order), and every batch actually processed has at most
10 files. -/
theorem c10_truncation :
    ∀ uploaded : List UploadedFile,
      (uploaded.length > 10 →
        app_flow uploaded = AppOutcome.runConversion (uploaded.take 10)) ∧
      (∀ fs, app_flow uploaded = AppOutcome.runConversion fs → fs.length ≤ 10) := by
  intro uploaded
  constructor
  · intro h
    rcases uploaded with _ | ⟨a, t⟩
    · simp at h
    · rw [app_flow_cases]
      simp only [limit_files, if_pos h]
  · intro fs hfs
    rcases uploaded with _ | ⟨a, t⟩
    · rw [app_flow_cases] at hfs
      exact absurd hfs (by simp)
    · rw [app_flow_cases] at hfs
      have hfs' : limit_files (a :: t) = fs := by
        injection hfs
      rw [← hfs', limit_files]
      split
      · simp
      · omega

/-- Witness for C10: eleven same-named uploads get cut down to ten. -/
theorem c10_truncation_witness :
    app_flow ((List.range 11).map (fun i => ⟨"clip.avi", [i]⟩)) =
      AppOutcome.runConversion (((List.range 11).map (fun i => (⟨"clip.avi", [i]⟩ : UploadedFile))).take 10) ∧
    (((List.range 11).map (fun i => (⟨"clip.avi", [i]⟩ : UploadedFile))).take 10).length ≤ 10 := by
  have h1 := (c10_truncation ((List.range 11).map (fun i => ⟨"clip.avi", [i]⟩))).1 (by decide)
  exact ⟨h1, (c10_truncation ((List.range 11).map (fun i => ⟨"clip.avi", [i]⟩))).2 _ h1⟩

/-- Claim C1: for every non-empty batch, the coordinator loop produces
exactly one result record per task (a worker's exception is captured as a
failure record rather than aborting the batch), and the succeeded and
failed partitions together account for every record. -/
theorem c1_batch_counts (files : List UploadedFile) (beh : Nat → TaskBehavior)
    (_hne : files ≠ []) :
    (run_batch files beh).length = files.length ∧
    (successful (run_batch files beh)).length + (failed (run_batch files beh)).length
      = files.length ∧
    (∀ msg, (exception_record msg).succeeded = false) := by
  refine ⟨?_, ?_, fun _ => rfl⟩
  · simp [run_batch]
  · rw [partition_length]
    simp [run_batch]

/-- Concrete batch for the C1 witness: one success, one tool failure, one
worker that raises. -/
def w1_files : List UploadedFile := [⟨"a.avi", [1, 2]⟩, ⟨"a.avi", [3]⟩, ⟨"c.avi", [4]⟩]

/-- Per-task behaviours for the C1 witness batch. -/
def w1_beh : Nat → TaskBehavior := fun n =>
  if n = 0 then ⟨none, "t0.avi", fun _ => .completed 0 "" "", some [9]⟩
  else if n = 1 then ⟨none, "t1.avi", fun _ => .completed 1 "" "invalid data", none⟩
  else ⟨some "worker crashed", "t2.avi", fun _ => .completed 0 "" "", none⟩

/-- Witness for C1: the three-task batch yields three records and the
partitions balance. -/
theorem c1_batch_counts_witness :
    (run_batch w1_files w1_beh).length = w1_files.length ∧
    (successful (run_batch w1_files w1_beh)).length
      + (failed (run_batch w1_files w1_beh)).length = w1_files.length ∧
    (∀ msg, (exception_record msg).succeeded = false) :=
  c1_batch_counts w1_files w1_beh (by decide)

/-- Claim C4 counterexample: after a zero-exit run that leaves an existing
but empty output file, the code records a success (it only checks
existence, never emptiness), where the claim demands a failure. -/
theorem c4_counterexample :
    (process_file "clip.avi" [7] 0 "t.avi" (fun _ => .completed 0 "" "") (some [])).1 =
      ⟨true, "clip.avi", some [], "clip_0.mp4", ""⟩ := by
  rfl

/-- Claim C4 (amended): after a tool run that reports success, an absent
output file downgrades the task to a failure with the diagnostic
"Output file not found after conversion."; an existing-but-empty output
still counts as a success. -/
theorem c4_amended_missing_output (name : String) (content : List Nat) (index : Nat)
    (tempPath : String) (proc : List String → ProcOutcome)
    (h : (convert_single_video tempPath
      (OUTPUT_DIR ++ "/" ++ output_filename name index) proc).1 = true) :
    (process_file name content index tempPath proc none).1 =
      ⟨false, name, none, "", "Output file not found after conversion."⟩ := by
  simp [process_file, h]

/-- Witness for C4 (amended): a zero-exit run whose output vanished. -/
theorem c4_amended_missing_output_witness :
    (convert_single_video "t.avi" (OUTPUT_DIR ++ "/" ++ output_filename "clip.avi" 0)
      (fun _ => .completed 0 "" "")).1 = true ∧
    (process_file "clip.avi" [7] 0 "t.avi" (fun _ => .completed 0 "" "") none).1 =
      ⟨false, "clip.avi", none, "", "Output file not found after conversion."⟩ :=
  ⟨rfl, c4_amended_missing_output "clip.avi" [7] 0 "t.avi" _ rfl⟩

/-- Claim C6 counterexample: a tool that exits non-zero with empty
captured stderr produces a failed record whose `errorDetail` is empty —
the claimed "no failed result has an empty errorDetail" does not hold. -/
theorem c6_counterexample :
    (process_file "a.avi" [1] 0 "t.avi" (fun _ => .completed 1 "" "") none).1.succeeded
        = false ∧
    (process_file "a.avi" [1] 0 "t.avi" (fun _ => .completed 1 "" "") none).1.errorDetail
        = "" :=
  ⟨rfl, rfl⟩

/-- Claim C6 (amended): every worker-produced record is exclusively one of
the two alternatives by its flag — a success carries an output artifact
(possibly empty bytes) and an empty `errorDetail`, a failure carries no
artifact; on a failure `errorDetail` is exactly the captured diagnostic:
the converter's captured text (the non-zero exit's stderr or the launch
failure message) when the tool run failed, and the fixed
"Output file not found after conversion." message when a reported success
left no output. The captured text may itself be empty, so a failed
record's `errorDetail` is not guaranteed non-empty. -/
theorem c6_amended_result_shape (name : String) (content : List Nat) (index : Nat)
    (tempPath : String) (proc : List String → ProcOutcome)
    (outputAfter : Option (List Nat)) :
    ((process_file name content index tempPath proc outputAfter).1.succeeded = true →
      (process_file name content index tempPath proc outputAfter).1.errorDetail = "" ∧
      ∃ b, (process_file name content index tempPath proc outputAfter).1.fileBytes
        = some b) ∧
    ((process_file name content index tempPath proc outputAfter).1.succeeded = false →
      (process_file name content index tempPath proc outputAfter).1.fileBytes = none) ∧
    ((convert_single_video tempPath
        (OUTPUT_DIR ++ "/" ++ output_filename name index) proc).1 = false →
      (process_file name content index tempPath proc outputAfter).1.errorDetail =
        (convert_single_video tempPath
          (OUTPUT_DIR ++ "/" ++ output_filename name index) proc).2) ∧
    ((convert_single_video tempPath
        (OUTPUT_DIR ++ "/" ++ output_filename name index) proc).1 = true →
      outputAfter = none →
      (process_file name content index tempPath proc outputAfter).1.errorDetail =
        "Output file not found after conversion.") := by
  rcases outputAfter with _ | bytes
  · simp only [process_file]
    split
    · next h =>
        exact ⟨fun hh => absurd hh Bool.false_ne_true, fun _ => rfl,
          fun hf => absurd h (by simp [hf]), fun _ _ => rfl⟩
    · next h =>
        exact ⟨fun hh => absurd hh Bool.false_ne_true, fun _ => rfl,
          fun _ => rfl, fun ht _ => absurd ht h⟩
  · simp only [process_file]
    split
    · next h =>
        exact ⟨fun _ => ⟨rfl, bytes, rfl⟩, fun hh => absurd hh (by simp),
          fun hf => absurd h (by simp [hf]), fun _ hno => Option.noConfusion hno⟩
    · next h =>
        exact ⟨fun hh => absurd hh Bool.false_ne_true, fun _ => rfl,
          fun _ => rfl, fun ht _ => absurd ht h⟩

/-- Witness for C6 (amended): a successful record, a launch-failure
record, a non-zero-exit record whose `errorDetail` is the captured
converter text, and a vanished-output record with the fixed message. -/
theorem c6_amended_result_shape_witness :
    ((process_file "a.avi" [1] 0 "t.avi" (fun _ => .completed 0 "" "")
        (some [5])).1.errorDetail = "" ∧
      ∃ b, (process_file "a.avi" [1] 0 "t.avi" (fun _ => .completed 0 "" "")
        (some [5])).1.fileBytes = some b) ∧
    (process_file "b.avi" [2] 1 "u.avi" (fun _ => .launchFailure "ffmpeg missing")
        none).1.fileBytes = none ∧
    (process_file "c.avi" [3] 2 "v.avi" (fun _ => .completed 1 "" "invalid data")
        none).1.errorDetail =
      (convert_single_video "v.avi" (OUTPUT_DIR ++ "/" ++ output_filename "c.avi" 2)
        (fun _ => .completed 1 "" "invalid data")).2 ∧
    (process_file "d.avi" [4] 3 "w.avi" (fun _ => .completed 0 "" "")
        none).1.errorDetail = "Output file not found after conversion." :=
  ⟨(c6_amended_result_shape "a.avi" [1] 0 "t.avi" _ (some [5])).1 rfl,
   (c6_amended_result_shape "b.avi" [2] 1 "u.avi" _ none).2.1 rfl,
   (c6_amended_result_shape "c.avi" [3] 2 "v.avi" _ none).2.2.1 rfl,
   (c6_amended_result_shape "d.avi" [4] 3 "w.avi" _ none).2.2.2 rfl rfl⟩

/-- Claim C7 counterexample: with no uploaded files the page shows the
usage instructions — not the spec's distinct InputRejected error. -/
theorem c7_counterexample :
    app_flow [] = AppOutcome.help ∧ AppOutcome.help ≠ AppOutcome.rejected :=
  ⟨rfl, by decide⟩

/-- Claim C7 (amended): an empty upload list performs no conversion work
and never yields a report — the page shows usage help exactly in that
case — but no explicit InputRejected error is ever surfaced. -/
theorem c7_amended_empty_shows_help :
    ∀ uploaded : List UploadedFile,
      (app_flow uploaded = AppOutcome.help ↔ uploaded = []) ∧
      app_flow uploaded ≠ AppOutcome.rejected := by
  intro uploaded
  rcases uploaded with _ | ⟨a, t⟩
  · exact ⟨by simp [app_flow_cases], by rw [app_flow_cases]; simp⟩
  · rw [app_flow_cases]
    refine ⟨⟨fun h => ?_, fun h => ?_⟩, fun h => ?_⟩
    · exact absurd h (by simp)
    · exact absurd h (by simp)
    · exact absurd h (by simp)

/-- Claim C8 counterexample: when the tool fails after partially writing
the destination, the task ends with the output file still on disk — it
survives the task, unlike the staged input. -/
theorem c8_counterexample :
    (process_file "a.avi" [1] 0 "t.avi" (fun _ => .completed 1 "" "broken input")
      (some [9])).2.1.outputFile = some [9] :=
  rfl

/-- Claim C8 (amended): every task deletes its staged temporary input
immediately after the converter call and before its result is returned
(the trace always starts write-temp, run-converter, unlink-temp and ends
with the result return), and whenever the recorded result is a success the
output file has been read and deleted; only a failing task can leave a
partially-written output behind. -/
theorem c8_amended_cleanup (name : String) (content : List Nat) (index : Nat)
    (tempPath : String) (proc : List String → ProcOutcome)
    (outputAfter : Option (List Nat)) :
    (process_file name content index tempPath proc outputAfter).2.1.tempInput = none ∧
    ((process_file name content index tempPath proc outputAfter).1.succeeded = true →
      (process_file name content index tempPath proc outputAfter).2.1.outputFile
        = none) ∧
    (process_file name content index tempPath proc outputAfter).2.2.take 3 =
      [Ev.writeTemp content,
       Ev.runConverter (ffmpeg_cmd tempPath
         (OUTPUT_DIR ++ "/" ++ output_filename name index)),
       Ev.unlinkTemp] ∧
    (process_file name content index tempPath proc outputAfter).2.2.getLast? =
      some Ev.returnResult := by
  rcases outputAfter with _ | bytes
  · simp only [process_file]
    split
    · exact ⟨rfl, fun _ => rfl, rfl, rfl⟩
    · exact ⟨rfl, fun _ => rfl, rfl, rfl⟩
  · simp only [process_file]
    split
    · exact ⟨rfl, fun _ => rfl, rfl, rfl⟩
    · exact ⟨rfl, fun h => absurd h Bool.false_ne_true, rfl, rfl⟩

/-- Witness for C8 (amended): a successful task leaves neither its staged
input nor its output behind. -/
theorem c8_amended_cleanup_witness :
    (process_file "a.avi" [1] 0 "t.avi" (fun _ => .completed 0 "" "")
      (some [5])).2.1.tempInput = none ∧
    (process_file "a.avi" [1] 0 "t.avi" (fun _ => .completed 0 "" "")
      (some [5])).2.1.outputFile = none :=
  ⟨(c8_amended_cleanup "a.avi" [1] 0 "t.avi" _ (some [5])).1,
   (c8_amended_cleanup "a.avi" [1] 0 "t.avi" _ (some [5])).2.1 rfl⟩

end AviConverter
